import Mathlib

/-!
Verification of the DevDeploy CI build-orchestration service against its design
specification.

The development shallowly embeds the Python source under `app/` as pure Lean
functions over an explicit database state:

* `app/services/webhook_service.py`  — `WebhookService.verify_github_signature`,
  `WebhookService.process_github_webhook` and its event handlers,
  `WebhookService.retry_failed_webhook`;
* `app/api/webhooks.py`              — the `github_webhook` receive endpoint
  (the second, effective definition at lines 63-189);
* `app/services/build_service.py`    — `BuildService.complete_build`,
  `BuildService.cancel_build`, `BuildService._generate_build_number`;
* `app/services/webhook_parser.py`   — `handle_github_workflow_run`;
* `app/workers/tasks.py`             — `_check_queued_builds`;
* `app/core/config.py`               — `MAX_CONCURRENT_BUILDS`.

Conventions of the embedding:

* timestamps are integer seconds (`datetime.utcnow()` becomes an explicit
  `now : Nat` argument; `timedelta(minutes=5)` is `300`);
* machine randomness (`secrets.token_urlsafe`), autoincremented primary keys
  and Python's salted `hash()` become explicit arguments (`fresh_...`);
* a model-constructor call that passes a keyword the model has no column for
  (SQLAlchemy's strict `declarative_base` constructor) is a raised
  `TypeError`, modelled as the error outcome of the enclosing operation;
* a SQLAlchemy session is a `DB` record of row lists; `query(...).filter(...)`
  is `List.filter`, `.first()` is `List.head?`, `order_by(created_at.desc())
  .first()` is `pickLatest`, and committing an update is `replaceBuild` /
  `replaceEvent`;
* Python truthiness of an optional string (`if not s:`) is `truthyS`;
* a function that can raise returns `Except String ...`;
* HMAC-SHA256 (`hmac.new(..., hashlib.sha256)`) is implemented concretely
  below over byte lists and validated against the FIPS-180-4 / RFC 4231 test
  vectors; `hmac.compare_digest` is modelled by its functional content,
  string equality.
-/

/-! ## Byte and string utilities -/

/-- Truncation to 32 bits. -/
def u32 (n : Nat) : Nat := n % 4294967296

/-- Right rotation of a 32-bit word. -/
def rotr (x n : Nat) : Nat := u32 ((x >>> n) ||| (x <<< (32 - n)))

/-- Logical right shift. -/
def shr (x n : Nat) : Nat := x >>> n

/-- UTF-8 encoding of one character. -/
def utf8EncCharNat (c : Char) : List Nat :=
  let n := c.toNat
  if n < 0x80 then [n]
  else if n < 0x800 then [0xC0 ||| (n >>> 6), 0x80 ||| (n &&& 0x3F)]
  else if n < 0x10000 then
    [0xE0 ||| (n >>> 12), 0x80 ||| ((n >>> 6) &&& 0x3F), 0x80 ||| (n &&& 0x3F)]
  else
    [0xF0 ||| (n >>> 18), 0x80 ||| ((n >>> 12) &&& 0x3F), 0x80 ||| ((n >>> 6) &&& 0x3F),
     0x80 ||| (n &&& 0x3F)]

/-- UTF-8 bytes of a string, as natural numbers (Python `s.encode("utf-8")`). -/
def strBytes (s : String) : List Nat := s.data.flatMap utf8EncCharNat

/-- Python truthiness of an optional string: `None` and `""` are falsy. -/
def truthyS (s : Option String) : Bool := !(s.getD "" == "")

/-- Lower-cased character list of a string. -/
def lowerChars (s : String) : List Char := s.data.map Char.toLower

/-- Contiguous-sublist test, used below for SQL `column ILIKE '%pat%'`. -/
def containsSub (hay pat : List Char) : Bool :=
  match hay with
  | [] => pat.isEmpty
  | _ :: t => pat.isPrefixOf hay || containsSub t pat

/-- SQL `column ILIKE '%pat%'`: case-insensitive containment. -/
def ilikeContains (column pat : String) : Bool :=
  containsSub (lowerChars column) (lowerChars pat)

/-- Python `str.replace(pat, rep)`: replace all non-overlapping occurrences,
left to right.  Fuel-based so that it reduces in the kernel; the fuel
`s.length` suffices for the non-empty patterns used here. -/
def replaceAllF : Nat → List Char → List Char → List Char → List Char
  | 0, s, _, _ => s
  | fuel + 1, s, pat, rep =>
    match s with
    | [] => []
    | c :: t =>
      if pat.isPrefixOf s && !pat.isEmpty then
        rep ++ replaceAllF fuel (s.drop pat.length) pat rep
      else c :: replaceAllF fuel t pat rep

/-- Python `s.replace(pat, rep)`. -/
def pyReplace (s pat rep : String) : String :=
  ⟨replaceAllF s.data.length s.data pat.data rep.data⟩

/-- Python `s.split(sep)` for a one-character separator. -/
def splitAtSep (sep : Char) : List Char → List (List Char)
  | [] => [[]]
  | c :: t =>
    let r := splitAtSep sep t
    if c == sep then [] :: r
    else
      match r with
      | h :: t2 => (c :: h) :: t2
      | [] => [[c]]

/-- Python `int(s)` on a digit string: `none` on anything that is not all
digits (Python additionally strips whitespace and signs, which never occur in
the build numbers parsed here). -/
def digitsToNat? (l : List Char) : Option Nat :=
  if !l.isEmpty && l.all Char.isDigit then
    some (l.foldl (fun n c => n * 10 + (c.toNat - 48)) 0)
  else none

/-- Python `f"{n:03d}"` for a natural number: zero-pad to width three. -/
def pad3 (n : Nat) : String :=
  if n < 10 then "00" ++ toString n
  else if n < 100 then "0" ++ toString n
  else toString n

/-- Python `name[:3].upper()`. -/
def upper3 (s : String) : String := ⟨(s.data.take 3).map Char.toUpper⟩

/-! ## SHA-256 and HMAC-SHA256

Concrete implementation of FIPS 180-4 SHA-256 over byte lists, written with
structural (fuel-based) recursion so that every application reduces inside the
kernel, and of RFC 2104 HMAC on top of it.  `sha256_test_vector` and
`hmac_test_vector` below check the standard test vectors. -/

/-- The 64 SHA-256 round constants. -/
def shaK : List Nat :=
  [1116352408, 1899447441, 3049323471, 3921009573,
   961987163, 1508970993, 2453635748, 2870763221,
   3624381080, 310598401, 607225278, 1426881987,
   1925078388, 2162078206, 2614888103, 3248222580,
   3835390401, 4022224774, 264347078, 604807628,
   770255983, 1249150122, 1555081692, 1996064986,
   2554220882, 2821834349, 2952996808, 3210313671,
   3336571891, 3584528711, 113926993, 338241895,
   666307205, 773529912, 1294757372, 1396182291,
   1695183700, 1986661051, 2177026350, 2456956037,
   2730485921, 2820302411, 3259730800, 3345764771,
   3516065817, 3600352804, 4094571909, 275423344,
   430227734, 506948616, 659060556, 883997877,
   958139571, 1322822218, 1537002063, 1747873779,
   1955562222, 2024104815, 2227730452, 2361852424,
   2428436474, 2756734187, 3204031479, 3329325298]

/-- The SHA-256 initial hash state. -/
def shaInit : List Nat :=
  [1779033703, 3144134277, 1013904242, 2773480762,
   1359893119, 2600822924, 528734635, 1541459225]

/-- SHA-256 padding: append `0x80`, zeros to 56 mod 64, then the 8-byte
big-endian bit length. -/
def padMsg (msg : List Nat) : List Nat :=
  let len := msg.length
  let bitLen := 8 * len
  let zeros := (64 - ((len + 9) % 64)) % 64
  let lenBytes := (List.range 8).map (fun i => (bitLen >>> (8 * (7 - i))) % 256)
  msg ++ [0x80] ++ List.replicate zeros 0 ++ lenBytes

/-- Split a padded message into 64-byte blocks (fuel-based). -/
def toBlocksF : Nat → List Nat → List (List Nat)
  | 0, _ => []
  | _, [] => []
  | fuel + 1, l => l.take 64 :: toBlocksF fuel (l.drop 64)

/-- The 64-byte blocks of a padded message. -/
def toBlocks (l : List Nat) : List (List Nat) := toBlocksF l.length l

/-- Big-endian 4-byte groups to 32-bit words. -/
def bytesToWords (l : List Nat) : List Nat :=
  match l with
  | b0 :: b1 :: b2 :: b3 :: rest => (((b0 * 256 + b1) * 256 + b2) * 256 + b3) :: bytesToWords rest
  | _ => []

/-- Extend the 16-word message schedule by `fuel` further words. -/
def extendScheduleF : Nat → List Nat → List Nat
  | 0, w => w
  | fuel + 1, w =>
    let i := w.length
    let w15 := w.getD (i - 15) 0
    let w2 := w.getD (i - 2) 0
    let s0 := (rotr w15 7) ^^^ (rotr w15 18) ^^^ (shr w15 3)
    let s1 := (rotr w2 17) ^^^ (rotr w2 19) ^^^ (shr w2 10)
    extendScheduleF fuel (w ++ [u32 (w.getD (i - 16) 0 + s0 + w.getD (i - 7) 0 + s1)])

/-- One SHA-256 compression round. -/
def compressStep (state : List Nat) (kw : Nat × Nat) : List Nat :=
  match state with
  | [a, b, c, d, e, f, g, hh] =>
    let s1 := (rotr e 6) ^^^ (rotr e 11) ^^^ (rotr e 25)
    let ch := (e &&& f) ^^^ ((0xffffffff ^^^ e) &&& g)
    let t1 := u32 (hh + s1 + ch + kw.1 + kw.2)
    let s0 := (rotr a 2) ^^^ (rotr a 13) ^^^ (rotr a 22)
    let maj := (a &&& b) ^^^ (a &&& c) ^^^ (b &&& c)
    let t2 := u32 (s0 + maj)
    [u32 (t1 + t2), a, b, c, u32 (d + t1), e, f, g]
  | s => s

/-- Process one 64-byte block. -/
def processBlock (hs : List Nat) (block : List Nat) : List Nat :=
  let w := extendScheduleF 48 (bytesToWords block)
  let s := (shaK.zip w).foldl (fun st kw => compressStep st kw) hs
  (hs.zip s).map (fun xy => u32 (xy.1 + xy.2))

/-- SHA-256 digest of a byte list, as 32 bytes. -/
def sha256 (msg : List Nat) : List Nat :=
  let final := (toBlocks (padMsg msg)).foldl processBlock shaInit
  final.flatMap (fun wrd => [(wrd >>> 24) % 256, (wrd >>> 16) % 256, (wrd >>> 8) % 256, wrd % 256])

/-- Lower-case hex digit. -/
def hexChar (n : Nat) : Char := "0123456789abcdef".data.getD n '0'

/-- Lower-case hex string of a byte list (Python `.hexdigest()`). -/
def bytesToHex (l : List Nat) : String :=
  ⟨l.flatMap (fun b => [hexChar (b / 16), hexChar (b % 16)])⟩

/-- HMAC-SHA256 per RFC 2104 (block size 64). -/
def hmacSha256 (key msg : List Nat) : List Nat :=
  let k0 := if key.length > 64 then sha256 key else key
  let kPad := k0 ++ List.replicate (64 - k0.length) 0
  let ipad := kPad.map (fun b => b ^^^ 0x36)
  let opad := kPad.map (fun b => b ^^^ 0x5c)
  sha256 (opad ++ sha256 (ipad ++ msg))

/-- Hex digest of HMAC-SHA256, i.e. Python
`hmac.new(key, msg, hashlib.sha256).hexdigest()`. -/
def hmacSha256Hex (key msg : List Nat) : String := bytesToHex (hmacSha256 key msg)

/-! ## Data model

Rows of the SQLAlchemy models (`app/models/*.py`) restricted to the columns
the embedded services read or write.  The services reference several
attributes the models do not declare (for example `WebhookEvent.delivery_id`
and `Build.build_number` are used by the services but absent from
`app/models/webhook.py` and `app/models/build.py`); the embedding keeps them
as fields, as the service layer assumes. -/

/-- A `projects` row (`app/models/project.py`). -/
structure Project where
  id : Nat
  name : String
  repository_url : String
  branch : String := "main"
  status : String := "active"
  webhook_secret : Option String := none
  webhook_enabled : Bool := true
deriving DecidableEq, Repr

/-- A `builds` row (`app/models/build.py` plus the service-layer columns). -/
structure Build where
  id : Nat
  project_id : Nat
  build_number : Option String := none
  status : String := "pending"
  trigger_type : String := "manual"
  commit_hash : Option String := none
  commit_message : Option String := none
  branch : Option String := none
  logs : Option String := none
  created_at : Nat := 0
  started_at : Option Nat := none
  completed_at : Option Nat := none
  duration_seconds : Option Int := none
  error_message : Option String := none
  external_url : Option String := none
  archived : Bool := false
deriving DecidableEq, Repr

/-- A `webhook_events` row.  The fields `id` through `processed_at` up to the
four noted below are columns of `app/models/webhook.py`; `delivery_id`,
`build_id`, `error_message` and `header_delivery_id` are NOT columns — they
are attributes the service layer tries to use.  Setting them on an existing
instance would merely attach a plain Python attribute, but passing
`delivery_id=` to the constructor raises `TypeError` (strict
`declarative_base` constructor), which is modelled at the two construction
sites.  The fields are kept here so rows exercising the service-layer
assumptions can still be written down; `header_delivery_id` is
`headers["delivery_id"]`. -/
structure WebhookEvent where
  id : Nat
  project_id : Option Nat := none
  build_id : Option Nat := none
  event_type : String
  signature : Option String := none
  delivery_id : String := ""
  status : String := "received"
  error_message : Option String := none
  delivery_attempts : Nat := 0
  last_delivery_attempt : Option Nat := none
  next_retry_at : Option Nat := none
  processed_at : Option Nat := none
  header_delivery_id : Option String := none
deriving DecidableEq, Repr

/-- A `build_logs` row (`app/models/build_log.py`). -/
structure BuildLog where
  build_id : Nat
  stage : String
  log_level : String
  message : String
deriving DecidableEq, Repr

/-- The database state seen by the embedded services. -/
structure DB where
  projects : List Project := []
  builds : List Build := []
  events : List WebhookEvent := []
  build_logs : List BuildLog := []
deriving DecidableEq, Repr

deriving instance DecidableEq for Except

/-- `db.query(Build).get(i)`. -/
def getBuild (bs : List Build) (i : Nat) : Option Build :=
  (bs.filter (fun b => b.id == i)).head?

/-- `db.query(WebhookEvent).get(i)`. -/
def getEvent (es : List WebhookEvent) (i : Nat) : Option WebhookEvent :=
  (es.filter (fun e => e.id == i)).head?

/-- `db.query(Project).get(i)`. -/
def getProject (ps : List Project) (i : Nat) : Option Project :=
  (ps.filter (fun p => p.id == i)).head?

/-- Keep whichever of the accumulator and the next row was created later
(the later row wins ties only if strictly later, matching a deterministic
reading of `ORDER BY created_at DESC ... .first()`). -/
def laterOf (acc : Option Build) (b : Build) : Option Build :=
  match acc with
  | none => some b
  | some a => if a.created_at < b.created_at then some b else some a

/-- `query.order_by(Build.created_at.desc()).first()`. -/
def pickLatest (bs : List Build) : Option Build := bs.foldl laterOf none

/-- Commit an updated build row back into the row list. -/
def replaceBuild (bs : List Build) (nb : Build) : List Build :=
  bs.map (fun b => if b.id == nb.id then nb else b)

/-- Commit an updated webhook-event row back into the row list. -/
def replaceEvent (es : List WebhookEvent) (ne : WebhookEvent) : List WebhookEvent :=
  es.map (fun e => if e.id == ne.id then ne else e)

/-- Insertion into a list sorted by `created_at` ascending. -/
def insertByCreated (b : Build) : List Build → List Build
  | [] => [b]
  | x :: t => if b.created_at ≤ x.created_at then b :: x :: t else x :: insertByCreated b t

/-- `ORDER BY created_at ASC` on build rows. -/
def sortByCreated : List Build → List Build
  | [] => []
  | x :: t => insertByCreated x (sortByCreated t)

/-- Number of builds with status `running` in a state. -/
def runningCount (db : DB) : Nat :=
  (db.builds.filter (fun b => b.status == "running")).length

/-- The terminal build statuses of the design state machine. -/
def terminalStatuses : List String := ["success", "failed", "cancelled", "timeout"]

/-- `app/core/config.py` line 46: `MAX_CONCURRENT_BUILDS: int = 3`. -/
def MAX_CONCURRENT_BUILDS : Nat := 3


/-! ## Webhook payloads

The embedded services only read the payload keys below; absent keys (which
`payload.get` turns into `None` / `{}` / `""`) are `none`. -/

/-- The `workflow_run` object of a GitHub `workflow_run` payload. -/
structure WorkflowRun where
  status : Option String := none
  conclusion : Option String := none
  head_sha : Option String := none
  html_url : Option String := none
deriving DecidableEq, Repr

/-- The `head_commit` object of a GitHub `push` payload. -/
structure HeadCommit where
  id : Option String := none
  message : Option String := none
deriving DecidableEq, Repr

/-- The payload keys read by the embedded services. -/
structure Payload where
  repository_html_url : Option String := none
  ref : Option String := none
  head_commit : Option HeadCommit := none
  workflow_run : Option WorkflowRun := none
  pusher_name : Option String := none
  zen : Option String := none
deriving DecidableEq, Repr

/-! ## WebhookService (`app/services/webhook_service.py`) -/

namespace WebhookService

/-- `WebhookService.verify_github_signature` (lines 25-64).  `not
signature_header` covers a missing and an empty header; a non-empty header
without the `sha256=` prefix raises `ValueError` (modelled as `.error`);
otherwise the expected digest is HMAC-SHA256 of the raw body under the secret
and is compared (`hmac.compare_digest`, modelled by string equality) against
`signature_header[7:]`. -/
def verify_github_signature (payload_body : List Nat) (signature_header : Option String)
    (secret : String) : Except String Bool :=
  if !truthyS signature_header then .ok false
  else
    let h := signature_header.getD ""
    if !("sha256=".data.isPrefixOf h.data) then
      .error "Invalid signature format. Expected sha256= prefix"
    else
      let signature : String := ⟨h.data.drop 7⟩
      let expected_signature := hmacSha256Hex (strBytes secret) payload_body
      .ok (expected_signature == signature)

/-- `WebhookService._handle_push_event` (lines 131-200).  (At runtime the
dispatcher `process_github_webhook` crashes before reaching any handler — see
below — so this embeds the handler logic in its own right, as the claims
cite it.)  Early returns mirror
the source: missing repository URL or no matching active webhook-enabled
project yield no project; a push to a non-monitored branch or without a commit
hash yields the project but creates nothing.  The signature block (lines
174-182) has a `pass` body, so it can do nothing.  The final step of the
source reads `build_service.create_build(...)`, but no name `build_service`
is bound anywhere in the module (the `BuildService` import at line 16 is
commented out, and line 8 imports from `build_service_simple.py`, a file
consisting entirely of comment lines), so evaluating that line raises
`NameError`, modelled as `.error`. -/
def handle_push_event (db : DB) (payload : Payload) : Except String (Option Nat) :=
  let repo_url := payload.repository_html_url.getD ""
  if repo_url == "" then .ok none
  else
    match (db.projects.filter (fun p =>
        ilikeContains p.repository_url repo_url && p.webhook_enabled &&
        p.status == "active")).head? with
    | none => .ok none
    | some project =>
      let branch := pyReplace (payload.ref.getD "") "refs/heads/" ""
      if branch != project.branch then .ok (some project.id)
      else
        let head_commit := payload.head_commit.getD {}
        let commit_hash := head_commit.id.getD ""
        if commit_hash == "" then .ok (some project.id)
        else .error "NameError: name build_service is not defined"

/-- `WebhookService._handle_workflow_run_event` (lines 202-255).  Returns the
resolved project id, the updated database, and the build id written to
`webhook_event.build_id`.  Only builds with status `pending` or `running` are
candidates (line 237); the newest by `created_at` is reconciled to `success`
or `failed` with `completed_at` and `external_url` set. -/
def handle_workflow_run_event (db : DB) (payload : Payload) (now : Nat) :
    Option Nat × DB × Option Nat :=
  let wr := payload.workflow_run.getD {}
  let conclusion := wr.conclusion.getD ""
  let status := wr.status.getD ""
  let head_sha := wr.head_sha.getD ""
  if status != "completed" || conclusion == "" || head_sha == "" then (none, db, none)
  else
    let repo_url := payload.repository_html_url.getD ""
    if repo_url == "" then (none, db, none)
    else
      match (db.projects.filter (fun p =>
          ilikeContains p.repository_url repo_url && p.status == "active")).head? with
      | none => (none, db, none)
      | some project =>
        match pickLatest (db.builds.filter (fun b =>
            b.project_id == project.id && b.commit_hash == some head_sha &&
            (b.status == "pending" || b.status == "running"))) with
        | none => (some project.id, db, none)
        | some build =>
          let build' :=
            if conclusion == "success" then
              { build with
                status := "success"
                completed_at := some now
                external_url := wr.html_url }
            else
              { build with
                status := "failed"
                error_message := some ("GitHub Actions: " ++ conclusion)
                completed_at := some now
                external_url := wr.html_url }
          (some project.id, { db with builds := replaceBuild db.builds build' }, some build.id)

/-- `WebhookService.process_github_webhook` (lines 66-129).  The function
begins (lines 88-95) by constructing
`WebhookEvent(event_type=..., payload=..., headers=..., signature=...,
delivery_id=secrets.token_urlsafe(16), status="received")` — but the
`WebhookEvent` model (`app/models/webhook.py`) declares no `delivery_id`
column, and `Base = declarative_base()` (`app/database.py` line 31) gives the
model SQLAlchemy's strict default constructor, which raises `TypeError` on an
unknown keyword.  The raise happens before `db.add`/`db.flush` and before the
`try` block at line 100, so every call fails without recording anything or
touching a build; callers (`process_webhook_async`, the `/test` endpoint, and
this module itself) only see the exception.  The arguments mirror the inputs
the source takes (`fresh_delivery_id` is the `secrets.token_urlsafe(16)`
value, `provider_delivery_id` the `X-GitHub-Delivery` header that only ever
lands inside `headers`); none of them is consulted before the constructor
raises, and no existing event is ever read — there is no idempotency check
anywhere in the function. -/
def process_github_webhook (_db : DB) (_payload : Payload) (_event_type : String)
    (_signature : Option String) (_provider_delivery_id : Option String)
    (_fresh_delivery_id : String) (_fresh_event_id : Nat) (_now : Nat) :
    Except String (DB × WebhookEvent) :=
  .error "TypeError: delivery_id is an invalid keyword argument for WebhookEvent"

/-- `WebhookService.retry_failed_webhook` (lines 348-386).  Permitted only for
an existing event with status `failed` and fewer than `max_retries = 3`
delivery attempts; then the event becomes `pending_retry` with the attempt
counter incremented and `next_retry_at` five minutes (300 s) ahead. -/
def retry_failed_webhook (db : DB) (webhook_id : Nat) (now : Nat) : Bool × DB :=
  match getEvent db.events webhook_id with
  | none => (false, db)
  | some ev =>
    if ev.status != "failed" then (false, db)
    else if 3 ≤ ev.delivery_attempts then (false, db)
    else
      let ev' := { ev with
        status := "pending_retry"
        delivery_attempts := ev.delivery_attempts + 1
        last_delivery_attempt := some now
        next_retry_at := some (now + 300) }
      (true, { db with events := replaceEvent db.events ev' })

end WebhookService

/-! ## Receive endpoint (`app/api/webhooks.py`, `github_webhook`, lines 63-189)

The endpoint reads the raw body, parses it as JSON (`json.loads`; the parse
outcome of the external library is an explicit `ParsedBody` argument), looks
up a webhook-enabled project whose `repository_url` contains the payload's
repository URL, verifies the signature when the project has a secret and a
signature header is present, and otherwise schedules background processing
(`process_webhook_async`, which runs `process_github_webhook` on a fresh
session after the response) and answers `202 Accepted`.  A JSON parse failure
answers `400` without recording anything; a `ValueError` from signature
verification answers `400`; and on a failed verification the attempt at lines
135-146 to record a `failed_verification` event crashes — see
`github_webhook` below — so the endpoint answers `500` with nothing
recorded. -/

/-- Outcome of `json.loads` on the raw body. -/
inductive ParsedBody
  | ok (payload : Payload)
  | invalid
deriving DecidableEq, Repr

/-- The observable outcome of one endpoint call: the HTTP status code, and
whether background processing of the event was scheduled. -/
structure WebhookResponse where
  status_code : Nat
  queued_background : Bool
deriving DecidableEq, Repr

/-- The project lookup of the endpoint (lines 112-117): first webhook-enabled
project whose `repository_url` contains the payload's repository URL
(`ILIKE '%repo_url%'`), skipped when the payload has no repository URL. -/
def endpointProjectLookup (db : DB) (payload : Payload) : Option Project :=
  let repo_url := payload.repository_html_url.getD ""
  if repo_url != "" then
    (db.projects.filter (fun p =>
      ilikeContains p.repository_url repo_url && p.webhook_enabled)).head?
  else none

/-- `github_webhook` (the second, effective definition, lines 63-189).  On a
failed signature verification the source (lines 135-146) constructs
`WebhookEvent(..., delivery_id=x_github_delivery or f"failed_.hash(raw_body)")`
— but `WebhookEvent` has no `delivery_id` column and the strict declarative
constructor raises `TypeError`, which the generic `except Exception` handler
at lines 184-189 converts to HTTP 500: nothing is recorded, no build is
touched, and no background task is scheduled.  `raw_body_hash` stands for
Python's process-salted `hash(raw_body)` consumed by that dead fallback;
`fresh_event_id` would be the autoincremented key of the event had the
insert been reachable.  Neither is consulted on any live path. -/
def github_webhook (db : DB) (raw_body : List Nat) (parsed : ParsedBody)
    (x_hub_signature_256 : Option String) (_x_github_event : Option String)
    (_x_github_delivery : Option String) (_raw_body_hash : Int) (_fresh_event_id : Nat) :
    WebhookResponse × DB :=
  match parsed with
  | .invalid => ({ status_code := 400, queued_background := false }, db)
  | .ok payload =>
    match endpointProjectLookup db payload with
    | some project =>
      if truthyS project.webhook_secret && truthyS x_hub_signature_256 then
        match WebhookService.verify_github_signature raw_body x_hub_signature_256
            (project.webhook_secret.getD "") with
        | .error _ => ({ status_code := 400, queued_background := false }, db)
        | .ok false =>
          ({ status_code := 500, queued_background := false }, db)
        | .ok true => ({ status_code := 202, queued_background := true }, db)
      else ({ status_code := 202, queued_background := true }, db)
    | none => ({ status_code := 202, queued_background := true }, db)

/-! ## BuildService (`app/services/build_service.py`) -/

namespace BuildService

/-- `BuildStatus` (lines 18-25). -/
inductive BuildStatus
  | pending | running | success | failed | cancelled | timeout
deriving DecidableEq, Repr

/-- The `.value` string of a `BuildStatus`. -/
def BuildStatus.val : BuildStatus → String
  | .pending => "pending"
  | .running => "running"
  | .success => "success"
  | .failed => "failed"
  | .cancelled => "cancelled"
  | .timeout => "timeout"

/-- `BuildService.complete_build` (lines 128-182).  A missing build or a build
that is neither `pending` nor `running` raises `ValueError`; otherwise the
build gets the terminal status, `completed_at := now`, and
`duration_seconds := int((completed_at - (started_at or created_at))
.total_seconds())`; `logs` and `error_message` overwrite only when truthy, and
a completion `BuildLog` row is appended. -/
def complete_build (db : DB) (build_id : Nat) (status : BuildStatus)
    (logs : Option String) (error_message : Option String) (now : Nat) :
    Except String (DB × Build) :=
  match getBuild db.builds build_id with
  | none => .error ("Build " ++ toString build_id ++ " not found")
  | some build =>
    if !(build.status == "pending" || build.status == "running") then
      .error ("Build " ++ toString build_id ++ " is already completed")
    else
      let build' := { build with
        status := status.val
        completed_at := some now
        duration_seconds := some ((now : Int) - ((build.started_at.getD build.created_at : Nat) : Int))
        logs := if truthyS logs then logs else build.logs
        error_message := if truthyS error_message then error_message else build.error_message }
      let log_level := if status = BuildStatus.failed then "error" else "info"
      let entry : BuildLog := {
        build_id := build.id
        stage := "completion"
        log_level := log_level
        message := "Build " ++ status.val }
      .ok ({ db with
             builds := replaceBuild db.builds build'
             build_logs := db.build_logs ++ [entry] }, build')

/-- `BuildService.cancel_build` (lines 211-243).  A missing build or a build
that is neither `pending` nor `running` raises `ValueError` (`"cannot be
cancelled"`); otherwise the build becomes `cancelled` with `completed_at`
stamped and a cancellation `BuildLog` row, and the change is committed.
(After the commit the source evaluates `self.redis.lrem(...)`; `BuildService`
has no `redis` attribute, so that line raises `AttributeError`, but the
committed state is as modelled.) -/
def cancel_build (db : DB) (build_id : Nat) (now : Nat) : Except String DB :=
  match getBuild db.builds build_id with
  | none => .error ("Build " ++ toString build_id ++ " not found")
  | some build =>
    if !(build.status == "pending" || build.status == "running") then
      .error ("Build " ++ toString build_id ++ " cannot be cancelled")
    else
      let build' := { build with status := "cancelled", completed_at := some now }
      let entry : BuildLog := {
        build_id := build.id
        stage := "cancellation"
        log_level := "warning"
        message := "Build cancelled by user" }
      .ok { db with
            builds := replaceBuild db.builds build'
            build_logs := db.build_logs ++ [entry] }

/-- `BuildService._generate_build_number` (lines 270-293).  The prefix is the
first three characters of the project name upper-cased (`"PRJ"` if the
project row is missing); the sequence number is read by scanning the
project's most recent build (`ORDER BY created_at DESC LIMIT 1`), parsing the
digits after the last `-` of its `build_number`, and adding one; any parse
failure, a missing previous build or an empty `build_number` restarts at 1.
The result is formatted `prefix-NNN` with the sequence zero-padded to three
digits. -/
def generate_build_number (db : DB) (project_id : Nat) : String :=
  let project_abbr := match getProject db.projects project_id with
    | some p => upper3 p.name
    | none => "PRJ"
  let last_build := pickLatest (db.builds.filter (fun b => b.project_id == project_id))
  let next_num := match last_build with
    | some lb =>
      if truthyS lb.build_number then
        match digitsToNat? ((splitAtSep '-' (lb.build_number.getD "").data).getLastD []) with
        | some n => n + 1
        | none => 1
      else 1
    | none => 1
  project_abbr ++ "-" ++ pad3 next_num

end BuildService

/-! ## Webhook parser (`app/services/webhook_parser.py`) -/

/-- `handle_github_workflow_run` (lines 83-139) — the second, divergent
reconciliation path, used by the worker task `_process_webhook_event`.  For a
completed workflow run it selects builds matching the head SHA (and the
project when one was resolved) with **no status filter**, takes
`scalar_one_or_none()` (an exception when more than one row matches), and
overwrites the build's status with `success`/`failed`, stamping
`completed_at` and `external_url`. -/
def handle_github_workflow_run (db : DB) (payload : Payload) (project : Option Project)
    (now : Nat) : Except String DB :=
  match payload.workflow_run with
  | none => .ok db
  | some wr =>
    let conclusion := wr.conclusion.getD ""
    let status := wr.status.getD ""
    if status == "completed" && conclusion != "" then
      let head_sha := wr.head_sha.getD ""
      if head_sha == "" then .ok db
      else
        match db.builds.filter (fun b =>
            b.commit_hash == some head_sha &&
            (match project with
             | some p => b.project_id == p.id
             | none => true)) with
        | [] => .ok db
        | [build] =>
          let html_url := wr.html_url.getD ""
          let build' :=
            if conclusion == "success" then
              { build with
                status := "success"
                completed_at := some now
                external_url := some html_url }
            else
              { build with
                status := "failed"
                completed_at := some now
                error_message := some ("GitHub Actions workflow failed: " ++ conclusion)
                external_url := some html_url }
          .ok { db with builds := replaceBuild db.builds build' }
        | _ => .error "MultipleResultsFound"
    else .ok db

/-! ## Queue worker (`app/workers/tasks.py`, `_check_queued_builds`, lines 171-196) -/

/-- The build rows `_check_queued_builds` selects to start: status `pending`,
not archived, ordered by `created_at` ascending, `LIMIT
settings.MAX_CONCURRENT_BUILDS`.  The LIMIT only caps how many pending rows
are fetched; the query never counts the builds already `running`. -/
def check_queued_builds_selection (db : DB) : List Build :=
  (sortByCreated (db.builds.filter (fun b => b.status == "pending" && !b.archived))).take
    MAX_CONCURRENT_BUILDS

/-- Modelled from the spec: `BuildRunner.run_build`, which
`_check_queued_builds` calls on each selected build, is referenced by
`app/workers/tasks.py` and `app/services/webhook_parser.py` but defined
nowhere in the repository (`app/services/build_runner.py` defines only
`simulate_build` and helpers).  Per spec section 4.3 — and exactly as the
repository's own `simulate_build` begins — running a build first transitions
it `pending → running` and stamps `started_at`. -/
def run_build_start (b : Build) (now : Nat) : Build :=
  { b with status := "running", started_at := some now }

/-- The state immediately after `_check_queued_builds`'s loop starts the first
selected pending build. -/
def check_queued_builds_start_first (db : DB) (now : Nat) : DB :=
  match check_queued_builds_selection db with
  | [] => db
  | b :: _ => { db with builds := replaceBuild db.builds (run_build_start b now) }

/-! ## Concrete scenarios

Fixture states used by the claim theorems and witnesses below. -/

/-- An active, webhook-enabled project monitoring branch `main`. -/
def demoProject : Project :=
  { id := 1, name := "demo", repository_url := "http://github.com/u/demo" }

/-- A push payload for `demoProject` on the monitored branch. -/
def demoPushPayload : Payload :=
  { repository_html_url := some "http://github.com/u/demo"
    ref := some "refs/heads/main"
    head_commit := some { id := some "abc123", message := some "a commit" } }

/-- State holding only `demoProject`. -/
def c1Db : DB := { projects := [demoProject] }

/-- Three running builds and one pending build, all unarchived. -/
def c3Db : DB :=
  { builds := [
      { id := 1, project_id := 1, status := "running", created_at := 1 },
      { id := 2, project_id := 1, status := "running", created_at := 2 },
      { id := 3, project_id := 1, status := "running", created_at := 3 },
      { id := 4, project_id := 1, status := "pending", created_at := 4 }] }

/-- A build already cancelled (terminal) for commit `abc123`. -/
def c4Build : Build :=
  { id := 7, project_id := 1, status := "cancelled", commit_hash := some "abc123",
    created_at := 10, completed_at := some 20 }

/-- State with `demoProject` and the cancelled `c4Build`. -/
def c4Db : DB := { projects := [demoProject], builds := [c4Build] }

/-- A completed, successful `workflow_run` payload for commit `abc123`. -/
def c4Payload : Payload :=
  { workflow_run := some
      { status := some "completed", conclusion := some "success",
        head_sha := some "abc123", html_url := some "http://ci/run/1" } }

/-- A build that already succeeded (terminal). -/
def c5Db : DB :=
  { builds := [{ id := 1, project_id := 1, status := "success", created_at := 5 }] }

/-- A project with a configured webhook secret. -/
def sigProject : Project :=
  { id := 1, name := "demo", repository_url := "http://github.com/u/demo",
    webhook_secret := some "topsecret" }

/-- State holding only `sigProject`. -/
def sigDb : DB := { projects := [sigProject] }

/-- A payload naming the repository of `sigProject`. -/
def sigPayload : Payload := { repository_html_url := some "http://github.com/u/demo" }

/-- The raw request body the signature is computed over. -/
def sigRawBody : List Nat :=
  strBytes "\x7b\"repository\": \x7b\"html_url\": \"http://github.com/u/demo\"\x7d\x7d"

/-- An event that failed processing after one delivery attempt. -/
def c7Db : DB :=
  { events := [{ id := 5, event_type := "github.push", status := "failed",
                 delivery_attempts := 1 }] }

/-- An event that failed processing and has exhausted its three attempts. -/
def c7ExhaustedDb : DB :=
  { events := [{ id := 5, event_type := "github.push", status := "failed",
                 delivery_attempts := 3 }] }

/-- A project named `project`, for build-number allocation. -/
def c8Project : Project :=
  { id := 1, name := "project", repository_url := "http://github.com/u/p" }

/-- Allocation state with no builds yet. -/
def c8Db : DB := { projects := [c8Project] }

/-- First concurrently-allocated build: its number was computed from the
`c8Db` snapshot. -/
def c8BuildA : Build :=
  { id := 2, project_id := 1,
    build_number := some (BuildService.generate_build_number c8Db 1), created_at := 10 }

/-- State after the first allocation committed. -/
def c8DbA : DB := { c8Db with builds := c8Db.builds ++ [c8BuildA] }

/-- Second concurrently-allocated build: its transaction also read the `c8Db`
snapshot, before the first allocation committed (the SELECT in
`_generate_build_number` takes no lock, so under any isolation level up to
read-committed both in-flight transactions see the pre-insert state). -/
def c8BuildB : Build :=
  { id := 3, project_id := 1,
    build_number := some (BuildService.generate_build_number c8Db 1), created_at := 11 }

/-- State after both racing allocations committed. -/
def c8DbAB : DB := { c8DbA with builds := c8DbA.builds ++ [c8BuildB] }

/-- A running build that started at 50 within a state. -/
def c9Db : DB :=
  { builds := [{ id := 1, project_id := 1, status := "running", created_at := 40,
                 started_at := some 50 }] }

/-! ## Theorems -/


set_option maxRecDepth 10000 in
/-- FIPS 180-4 test vector: SHA-256 of "abc". -/
theorem sha256_test_vector :
    bytesToHex (sha256 (strBytes "abc")) =
      "ba7816bf8f01cfea414140de5dae2223b00361a396177a9cb410ff61f20015ad" := by decide

set_option maxRecDepth 10000 in
/-- RFC 4231 test case 2: HMAC-SHA256 with key "Jefe". -/
theorem hmac_test_vector :
    hmacSha256Hex (strBytes "Jefe") (strBytes "what do ya want for nothing?") =
      "5bdcc146bf60754e6a042426089575c75a003f089d2739839dec58b964ec3843" := by decide

theorem pickLatest_mem_aux (bs : List Build) (acc : Option Build) (b : Build)
    (h : bs.foldl laterOf acc = some b) : acc = some b ∨ b ∈ bs := by
  induction bs generalizing acc with
  | nil => exact Or.inl h
  | cons x t ih =>
    rcases ih (laterOf acc x) h with h1 | h2
    · cases acc with
      | none =>
        simp only [laterOf, Option.some.injEq] at h1
        exact Or.inr (h1 ▸ List.mem_cons_self x t)
      | some a =>
        simp only [laterOf] at h1
        by_cases hc : a.created_at < x.created_at
        · rw [if_pos hc] at h1
          exact Or.inr (Option.some.inj h1 ▸ List.mem_cons_self x t)
        · rw [if_neg hc] at h1
          exact Or.inl h1
    · exact Or.inr (List.mem_cons_of_mem x h2)

/-- A row returned by `pickLatest` is one of the rows of the query. -/
theorem pickLatest_mem {bs : List Build} {b : Build} (h : pickLatest bs = some b) : b ∈ bs := by
  rcases pickLatest_mem_aux bs none b h with h1 | h2
  · exact absurd h1 (by simp)
  · exact h2


/-- C3: the claimed global concurrency-cap invariant fails.  `c3Db` already
has `MAX_CONCURRENT_BUILDS = 3` running builds, yet `_check_queued_builds`
still selects its pending build (the LIMIT only caps how many pending rows
are fetched; no gate compares against the running count), and starting it
yields four running builds — exceeding the cap. -/
theorem c3_admission_ignores_running_count :
    runningCount c3Db = MAX_CONCURRENT_BUILDS ∧
    check_queued_builds_selection c3Db ≠ [] ∧
    runningCount (check_queued_builds_start_first c3Db 50) = MAX_CONCURRENT_BUILDS + 1 := by
  decide

/-- C4: the run-completion reconciliation of `app/services/webhook_parser.py`
moves a build out of a terminal state: `c4Build` is `cancelled`, yet a
completed successful `workflow_run` event for its commit rewrites it to
`success` (the build query there has no status filter). -/
theorem c4_parser_reconciliation_leaves_terminal_state :
    c4Build.status ∈ terminalStatuses ∧
    handle_github_workflow_run c4Db c4Payload (some demoProject) 99 =
      .ok { c4Db with builds := [{ c4Build with
        status := "success"
        completed_at := some 99
        external_url := some "http://ci/run/1" }] } := by
  decide

/-- C5 counterexample: cancelling the already-successful build 1 of `c5Db` is
not a no-op success — `cancel_build` raises `ValueError` (modelled as
`.error`). -/
theorem c5_cancel_terminal_is_error :
    c5Db.builds.map (fun b => b.status) = ["success"] ∧
    BuildService.cancel_build c5Db 1 99 = .error "Build 1 cannot be cancelled" := by
  decide

/-- C6 counterexample: a body that fails JSON parsing is rejected with HTTP
400 and no `WebhookEvent` row is recorded, contrary to the claimed
always-2xx acknowledgment with a `received` fallback event. -/
theorem c6_invalid_json_is_rejected_unrecorded :
    (github_webhook c1Db (strBytes "not json") .invalid none none none 0 1).1.status_code = 400 ∧
    (github_webhook c1Db (strBytes "not json") .invalid none none none 0 1).2 = c1Db ∧
    c1Db.events = [] := by
  decide

/-- C8: two concurrent allocations for the same project return the same build
number.  Both in-flight transactions read the `c8Db` snapshot (the SELECT in
`_generate_build_number` scans the most recent build and takes no lock), so
both compute `PRO-001`, and after both commit the state holds two distinct
builds with the same number; the next sequential allocation then continues at
`PRO-002`. -/
theorem c8_concurrent_allocation_collides :
    BuildService.generate_build_number c8Db 1 = "PRO-001" ∧
    c8BuildA.build_number = some "PRO-001" ∧
    c8BuildB.build_number = some "PRO-001" ∧
    c8BuildA.id ≠ c8BuildB.id ∧
    c8BuildA ∈ c8DbAB.builds ∧
    c8BuildB ∈ c8DbAB.builds ∧
    BuildService.generate_build_number c8DbAB 1 = "PRO-002" := by
  decide


/-- C1: webhook ingestion is not idempotent on `delivery_id` — it records
nothing at all.  Every call of `process_github_webhook` raises `TypeError`
while constructing the `WebhookEvent` (the model has no `delivery_id`
column), before any database write and before any look at existing events:
there is no recorded-`delivery_id` short-circuit, no no-op success, and N
deliveries of the same payload with the same provider delivery id create
zero builds and zero event rows — never the claimed single Build.  Even past
that constructor, the push path could not create a build: `_handle_push_event`
evaluated on the demo state hits the unbound name `build_service` and raises
`NameError`. -/
theorem c1_ingestion_never_records :
    (∀ (db : DB) (payload : Payload) (event_type : String) (signature : Option String)
        (pdid : Option String) (fdid : String) (feid now : Nat),
      WebhookService.process_github_webhook db payload event_type signature pdid fdid feid
          now =
        .error "TypeError: delivery_id is an invalid keyword argument for WebhookEvent")
    ∧ WebhookService.handle_push_event c1Db demoPushPayload =
        .error "NameError: name build_service is not defined" := by
  exact ⟨fun _ _ _ _ _ _ _ _ => rfl, by decide⟩

/-- C7: the retry contract.  `retry_failed_webhook` succeeds exactly when the
event exists with status `failed` and fewer than three delivery attempts; a
successful retry increments `delivery_attempts` and sets `next_retry_at` five
minutes into the future; every rejected retry leaves the state untouched. -/
theorem c7_retry_contract (db : DB) (webhook_id : Nat) (now : Nat) :
    ((WebhookService.retry_failed_webhook db webhook_id now).1 = true ↔
      ∃ ev, getEvent db.events webhook_id = some ev ∧ ev.status = "failed" ∧
        ev.delivery_attempts < 3)
    ∧ ((WebhookService.retry_failed_webhook db webhook_id now).1 = false →
        (WebhookService.retry_failed_webhook db webhook_id now).2 = db)
    ∧ (∀ ev, getEvent db.events webhook_id = some ev → ev.status = "failed" →
        ev.delivery_attempts < 3 →
        (WebhookService.retry_failed_webhook db webhook_id now).1 = true ∧
        (WebhookService.retry_failed_webhook db webhook_id now).2.events =
          replaceEvent db.events { ev with
            status := "pending_retry"
            delivery_attempts := ev.delivery_attempts + 1
            last_delivery_attempt := some now
            next_retry_at := some (now + 300) } ∧
        now < now + 300) := by
  unfold WebhookService.retry_failed_webhook
  cases hge : getEvent db.events webhook_id with
  | none =>
    refine ⟨by simp, fun _ => rfl, fun ev hev _ _ => Option.noConfusion hev⟩
  | some ev =>
    dsimp only
    by_cases hst : ev.status = "failed"
    · have hc1 : (ev.status != "failed") = false := by simp [hst]
      by_cases hat : ev.delivery_attempts < 3
      · have hc2 : ¬ 3 ≤ ev.delivery_attempts := by omega
        refine ⟨iff_of_true (by simp [hc1, hc2]) ⟨ev, rfl, hst, hat⟩, ?_, ?_⟩
        · intro h
          simp [hc1, hc2] at h
        · intro ev2 hev2 _ _
          injection hev2 with heq
          subst heq
          exact ⟨by simp [hc1, hc2], by simp [hc1, hc2], by omega⟩
      · have hc2 : 3 ≤ ev.delivery_attempts := by omega
        refine ⟨iff_of_false (by simp [hc1, hc2]) ?_, ?_, ?_⟩
        · rintro ⟨ev2, hev2, _, hat2⟩
          injection hev2 with heq
          subst heq
          omega
        · intro
          simp [hc1, hc2]
        · intro ev2 hev2 _ hat2
          injection hev2 with heq
          subst heq
          omega
    · have hc1 : (ev.status != "failed") = true := by simp [hst]
      refine ⟨iff_of_false (by simp [hc1]) ?_, ?_, ?_⟩
      · rintro ⟨ev2, hev2, hst2, _⟩
        injection hev2 with heq
        subst heq
        exact hst hst2
      · intro
        simp [hc1]
      · intro ev2 hev2 hst2 _
        injection hev2 with heq
        subst heq
        exact absurd hst2 hst

/-- C7 witness: in `c7Db` event 5 is `failed` with one attempt, so retry at
time 1000 succeeds, increments the counter to 2 and schedules the next
attempt at 1300, which is in the future; in `c7ExhaustedDb` the same event
has three attempts, and the rejected retry leaves the state unchanged. -/
theorem c7_retry_contract_witness :
    ((WebhookService.retry_failed_webhook c7Db 5 1000).1 = true ∧
     (WebhookService.retry_failed_webhook c7Db 5 1000).2.events =
       replaceEvent c7Db.events { id := 5
                                  event_type := "github.push"
                                  status := "pending_retry"
                                  delivery_attempts := 2
                                  last_delivery_attempt := some 1000
                                  next_retry_at := some 1300 } ∧
     (1000 : Nat) < 1300)
    ∧ ((WebhookService.retry_failed_webhook c7ExhaustedDb 5 1000).2 = c7ExhaustedDb) := by
  constructor
  · exact (c7_retry_contract c7Db 5 1000).2.2
      { id := 5, event_type := "github.push", status := "failed", delivery_attempts := 1 }
      (by decide) (by decide) (by decide)
  · exact (c7_retry_contract c7ExhaustedDb 5 1000).2.1 (by decide)

/-- C5 (amended): cancelling a build that is already in a terminal state is
rejected with a `ValueError` — the build is left unchanged, but the call is
an error, not a silent no-op success. -/
theorem c5_cancel_terminal_build_rejected (db : DB) (build_id : Nat) (now : Nat)
    (b : Build) (hfind : getBuild db.builds build_id = some b)
    (hterm : b.status ∈ terminalStatuses) :
    BuildService.cancel_build db build_id now =
      .error ("Build " ++ toString build_id ++ " cannot be cancelled") := by
  have hcond : (b.status == "pending" || b.status == "running") = false := by
    simp only [terminalStatuses, List.mem_cons, List.not_mem_nil, or_false] at hterm
    rcases hterm with h | h | h | h <;> simp [h]
  unfold BuildService.cancel_build
  rw [hfind]
  simp [hcond]

/-- C5 witness: the amended statement applied to `c5Db`, whose build 1 is
already `success`. -/
theorem c5_cancel_terminal_build_rejected_witness :
    BuildService.cancel_build c5Db 1 99 = .error "Build 1 cannot be cancelled" :=
  c5_cancel_terminal_build_rejected c5Db 1 99
    { id := 1, project_id := 1, status := "success", created_at := 5 }
    (by decide) (by decide)

/-- C9: when a build completes from `pending` or `running`, `completed_at` is
stamped with the completion time and `duration_seconds` is the integer number
of seconds between `completed_at` and `started_at`, falling back to
`created_at` when `started_at` is unset; the build row is otherwise updated
exactly as `complete_build` writes it. -/
theorem c9_duration_formula (db : DB) (build_id : Nat) (status : BuildService.BuildStatus)
    (logs error_message : Option String) (now : Nat) (b : Build)
    (hfind : getBuild db.builds build_id = some b)
    (hactive : b.status = "pending" ∨ b.status = "running") :
    ∃ db', BuildService.complete_build db build_id status logs error_message now =
      .ok (db', { b with
        status := status.val
        completed_at := some now
        duration_seconds := some ((now : Int) - ((b.started_at.getD b.created_at : Nat) : Int))
        logs := if truthyS logs then logs else b.logs
        error_message := if truthyS error_message then error_message else b.error_message }) := by
  have hcond : (b.status == "pending" || b.status == "running") = true := by
    rcases hactive with h | h <;> simp [h]
  unfold BuildService.complete_build
  rw [hfind]
  simp only [hcond, Bool.not_true, Bool.false_eq_true, if_false]
  exact ⟨_, rfl⟩

/-- C9 witness: completing the running build of `c9Db` (started at 50) at
time 80 records `completed_at = 80` and `duration_seconds = 30`. -/
theorem c9_duration_formula_witness :
    ∃ db', BuildService.complete_build c9Db 1 BuildService.BuildStatus.success none none 80 =
      .ok (db', { id := 1, project_id := 1, status := "success", created_at := 40,
                  started_at := some 50, completed_at := some 80,
                  duration_seconds := some 30 }) := by
  have h := c9_duration_formula c9Db 1 BuildService.BuildStatus.success none none 80
    { id := 1, project_id := 1, status := "running", created_at := 40, started_at := some 50 }
    (by decide) (Or.inr (by decide))
  simpa using h

theorem sha_append_ne_empty (d : String) : "sha256=" ++ d ≠ "" := by
  intro h
  have hd := congrArg String.data h
  rw [String.data_append] at hd
  simp at hd

theorem isPrefixOf_of_eq_sha_append (hs d : String) (h : hs = "sha256=" ++ d) :
    "sha256=".data.isPrefixOf hs.data = true := by
  subst h
  rw [String.data_append]
  exact List.isPrefixOf_iff_prefix.mpr (List.prefix_append _ _)

theorem data_split_of_isPrefixOf (hs : String)
    (hpre : "sha256=".data.isPrefixOf hs.data = true) :
    hs.data = "sha256=".data ++ hs.data.drop 7 := by
  have hp := List.isPrefixOf_iff_prefix.mp hpre
  have htake := List.prefix_iff_eq_take.mp hp
  conv_lhs => rw [← List.take_append_drop 7 hs.data]
  congr 1
  exact htake.symm

set_option maxRecDepth 100000 in
/-- C2: the verification arithmetic is right but the claimed recording is
not.  First, `verify_github_signature` accepts exactly when the header is the
literal `sha256=` followed by the lower-case hex HMAC-SHA256 digest of the
raw body under the secret (`hmac.compare_digest` modelled by its functional
content; its constant-time execution is a timing property outside the
embedding).  Second, at the concrete failing input — `sigProject` with
configured secret `topsecret`, a provided well-formed but mismatched header
`sha256=00` — verification returns false, and the endpoint then answers HTTP
500 with the state unchanged: the attempted `failed_verification` insert
raises `TypeError` (no `delivery_id` column), so no event is recorded and no
build is created or mutated — not the claimed `failed_verification` row. -/
theorem c2_mismatch_answers_500_unrecorded :
    (∀ (body : List Nat) (hs secret : String),
      WebhookService.verify_github_signature body (some hs) secret = .ok true ↔
        hs = "sha256=" ++ hmacSha256Hex (strBytes secret) body)
    ∧ WebhookService.verify_github_signature sigRawBody (some "sha256=00") "topsecret" =
        .ok false
    ∧ github_webhook sigDb sigRawBody (.ok sigPayload) (some "sha256=00") none (some "d-77")
        9 5 = ({ status_code := 500, queued_background := false }, sigDb) := by
  refine ⟨?_, by decide, by decide⟩
  intro body hs secret
  by_cases h0 : hs = ""
  · subst h0
    refine iff_of_false ?_ (fun h => sha_append_ne_empty _ h.symm)
    unfold WebhookService.verify_github_signature
    simp [truthyS]
  · have ht : truthyS (some hs) = true := by simp [truthyS, h0]
    by_cases hpre : ("sha256=".data.isPrefixOf hs.data) = true
    · have hv : WebhookService.verify_github_signature body (some hs) secret =
          .ok (hmacSha256Hex (strBytes secret) body == (⟨hs.data.drop 7⟩ : String)) := by
        unfold WebhookService.verify_github_signature
        simp [ht, hpre]
      rw [hv]
      simp only [Except.ok.injEq, beq_iff_eq]
      constructor
      · intro hd
        have hsplit := data_split_of_isPrefixOf hs hpre
        calc hs = ⟨hs.data⟩ := rfl
          _ = ⟨"sha256=".data ++ hs.data.drop 7⟩ := congrArg String.mk hsplit
          _ = "sha256=" ++ (⟨hs.data.drop 7⟩ : String) := rfl
          _ = "sha256=" ++ hmacSha256Hex (strBytes secret) body := by rw [hd]
      · intro h
        subst h
        rw [String.data_append]
        have hdrop : List.drop 7 ("sha256=".data ++
            (hmacSha256Hex (strBytes secret) body).data) =
            (hmacSha256Hex (strBytes secret) body).data :=
          List.drop_left "sha256=".data (hmacSha256Hex (strBytes secret) body).data
        rw [hdrop]
    · have hv : WebhookService.verify_github_signature body (some hs) secret =
          .error "Invalid signature format. Expected sha256= prefix" := by
        unfold WebhookService.verify_github_signature
        simp [ht, hpre]
      rw [hv]
      exact iff_of_false (by simp) (fun h => hpre (isPrefixOf_of_eq_sha_append hs _ h))

/-- C10: `verify_github_signature` is not total over its header.  A missing
or empty header returns `false` without raising; a non-empty header that does
not start with `sha256=` raises `ValueError` instead of returning `false`;
and the endpoint, which catches `ValueError`, answers such requests with HTTP
400 and records nothing — not `failed_verification`. -/
theorem c10_malformed_header_raises :
    (∀ (body : List Nat) (secret : String),
      WebhookService.verify_github_signature body none secret = .ok false)
    ∧ (∀ (body : List Nat) (secret : String),
      WebhookService.verify_github_signature body (some "") secret = .ok false)
    ∧ (∀ (body : List Nat) (secret hs : String), hs ≠ "" →
        "sha256=".data.isPrefixOf hs.data = false →
        WebhookService.verify_github_signature body (some hs) secret =
          .error "Invalid signature format. Expected sha256= prefix")
    ∧ (∀ (db : DB) (raw : List Nat) (payload : Payload) (hs : String)
        (xev xdel : Option String) (hash : Int) (fid : Nat) (project : Project),
        endpointProjectLookup db payload = some project →
        truthyS project.webhook_secret = true →
        hs ≠ "" →
        "sha256=".data.isPrefixOf hs.data = false →
        github_webhook db raw (.ok payload) (some hs) xev xdel hash fid =
          ({ status_code := 400, queued_background := false }, db)) := by
  have herr : ∀ (body : List Nat) (secret hs : String), hs ≠ "" →
      "sha256=".data.isPrefixOf hs.data = false →
      WebhookService.verify_github_signature body (some hs) secret =
        .error "Invalid signature format. Expected sha256= prefix" := by
    intro body secret hs h0 hpre
    have ht : truthyS (some hs) = true := by simp [truthyS, h0]
    unfold WebhookService.verify_github_signature
    simp [ht, hpre]
  refine ⟨?_, ?_, herr, ?_⟩
  · intro body secret
    unfold WebhookService.verify_github_signature
    simp [truthyS]
  · intro body secret
    unfold WebhookService.verify_github_signature
    simp [truthyS]
  · intro db raw payload hs xev xdel hash fid project hlook hsec h0 hpre
    have ht : truthyS (some hs) = true := by simp [truthyS, h0]
    unfold github_webhook
    dsimp only
    rw [hlook]
    simp [hsec, ht, herr raw (project.webhook_secret.getD "") hs h0 hpre]

/-- C10 witness: the header `bad` is non-empty and lacks the `sha256=`
prefix, so verification raises and the endpoint answers 400 with the state
untouched; a missing and an empty header both return `false`. -/
theorem c10_malformed_header_raises_witness :
    WebhookService.verify_github_signature sigRawBody none "topsecret" = .ok false ∧
    WebhookService.verify_github_signature sigRawBody (some "") "topsecret" = .ok false ∧
    WebhookService.verify_github_signature sigRawBody (some "bad") "topsecret" =
      .error "Invalid signature format. Expected sha256= prefix" ∧
    github_webhook sigDb sigRawBody (.ok sigPayload) (some "bad") none none 9 5 =
      ({ status_code := 400, queued_background := false }, sigDb) :=
  ⟨c10_malformed_header_raises.1 sigRawBody "topsecret",
   c10_malformed_header_raises.2.1 sigRawBody "topsecret",
   c10_malformed_header_raises.2.2.1 sigRawBody "topsecret" "bad" (by decide) (by decide),
   c10_malformed_header_raises.2.2.2 sigDb sigRawBody sigPayload "bad" none none 9 5
     sigProject (by decide) (by decide) (by decide) (by decide)⟩

/-- C6 (amended): the receive endpoint answers 202 Accepted — regardless of
the later background-processing outcome, which runs only after the response —
exactly for bodies that parse as JSON and do not fail inline signature
verification; a body that fails JSON parsing is rejected with HTTP 400 and no
`WebhookEvent` is recorded. -/
theorem c6_receipt_contract :
    (∀ (db : DB) (raw : List Nat) (sig xev xdel : Option String) (hash : Int) (fid : Nat),
      github_webhook db raw .invalid sig xev xdel hash fid =
        ({ status_code := 400, queued_background := false }, db))
    ∧ (∀ (db : DB) (raw : List Nat) (payload : Payload) (sig xev xdel : Option String)
        (hash : Int) (fid : Nat),
      endpointProjectLookup db payload = none →
      github_webhook db raw (.ok payload) sig xev xdel hash fid =
        ({ status_code := 202, queued_background := true }, db))
    ∧ (∀ (db : DB) (raw : List Nat) (payload : Payload) (sig xev xdel : Option String)
        (hash : Int) (fid : Nat) (project : Project),
      endpointProjectLookup db payload = some project →
      (truthyS project.webhook_secret && truthyS sig) = false →
      github_webhook db raw (.ok payload) sig xev xdel hash fid =
        ({ status_code := 202, queued_background := true }, db))
    ∧ (∀ (db : DB) (raw : List Nat) (payload : Payload) (sig xev xdel : Option String)
        (hash : Int) (fid : Nat) (project : Project),
      endpointProjectLookup db payload = some project →
      WebhookService.verify_github_signature raw sig (project.webhook_secret.getD "") =
        .ok true →
      github_webhook db raw (.ok payload) sig xev xdel hash fid =
        ({ status_code := 202, queued_background := true }, db)) := by
  refine ⟨fun db raw sig xev xdel hash fid => rfl, ?_, ?_, ?_⟩
  · intro db raw payload sig xev xdel hash fid hlook
    unfold github_webhook
    dsimp only
    rw [hlook]
  · intro db raw payload sig xev xdel hash fid project hlook hgate
    unfold github_webhook
    dsimp only
    rw [hlook]
    simp [hgate]
  · intro db raw payload sig xev xdel hash fid project hlook hver
    unfold github_webhook
    dsimp only
    rw [hlook]
    by_cases hgate : (truthyS project.webhook_secret && truthyS sig) = true
    · simp [hgate, hver]
    · simp [Bool.not_eq_true _ ▸ hgate]

/-- C6 witness: an unparseable body on `c1Db` is answered 400 with nothing
recorded, and a parseable body that matches no project is answered 202 with
background processing scheduled. -/
theorem c6_receipt_contract_witness :
    github_webhook c1Db (strBytes "not json") .invalid none none none 0 1 =
      ({ status_code := 400, queued_background := false }, c1Db) ∧
    github_webhook ({} : DB) [] (.ok {}) none none none 0 1 =
      ({ status_code := 202, queued_background := true }, ({} : DB)) :=
  ⟨c6_receipt_contract.1 c1Db (strBytes "not json") none none none 0 1,
   c6_receipt_contract.2.1 ({} : DB) [] {} none none none 0 1 (by decide)⟩

/-- Context for the terminal-state claim: unlike the parser path refuted
above, the `WebhookService` reconciliation only ever writes to a build that
was `pending` or `running` — whenever it reports an updated build id, that
build came from its status-filtered query. -/
theorem service_reconciliation_targets_only_active (db : DB) (payload : Payload) (now : Nat)
    (pid : Option Nat) (db2 : DB) (bid : Nat)
    (h : WebhookService.handle_workflow_run_event db payload now = (pid, db2, some bid)) :
    ∃ b, b ∈ db.builds ∧ b.id = bid ∧ (b.status = "pending" ∨ b.status = "running") := by
  unfold WebhookService.handle_workflow_run_event at h
  dsimp only at h
  repeat' split at h
  all_goals simp only [Prod.mk.injEq] at h
  all_goals try (exact Option.noConfusion h.2.2)
  all_goals
    rename_i acc build heq hcond
    have hmem := pickLatest_mem heq
    rw [List.mem_filter] at hmem
    obtain ⟨hb, hp⟩ := hmem
    simp only [Bool.and_eq_true, Bool.or_eq_true, beq_iff_eq] at hp
    exact ⟨build, hb, Option.some.inj h.2.2, hp.2⟩
